import Mathlib

/-!
Verification of the cache/seed subsystem of inadyn (src/src/cache.c).

The module under study has four functions:
  nslookup          — DNS resolution of an alias name to a numeric address
  read_one          — seed a single alias from its cache file, with fallback
  read_cache_file   — seeding entry point over the whole configuration
  write_cache_file  — persist an alias address to its cache file

The embedding is a shallow one: the filesystem is an explicit map from
paths to file contents paired with modification times, the system
resolver is an oracle, and side effects of interest (the res_init call
and every getaddrinfo invocation) are recorded in an event trace.
Buffer sizes (MAX_ADDRESS_LEN, from ddns.h which is not part of the
visible sources) are kept as an explicit parameter maxLen.
-/

set_option autoImplicit false

namespace Inadyn

/-- Alias record (ddns_alias_t): the three fields the cache subsystem
touches.  address models the NUL-terminated content of the fixed
char buffer; last_update models the time_t field, 0 meaning never. -/
structure Alias where
  name : List Char
  address : List Char
  last_update : Nat
  deriving DecidableEq, Repr

/-- Provider group (ddns_info_t): the provider identity string
(info->system->name) and the aliases it owns. -/
structure Info where
  system_name : List Char
  aliases : List Alias
  deriving DecidableEq, Repr

/-- Configuration context (ddns_t): the list of provider groups. -/
structure Ctx where
  info : List Info
  deriving DecidableEq, Repr

/-- Filesystem model: files maps a path to the file content and its
modification time (fopen for reading succeeds exactly when the entry is
present); writable tells whether fopen for writing succeeds at a path. -/
structure Fs where
  files : List Char → Option (List Char × Nat)
  writable : List Char → Bool

/-- Resolver oracle: gai models getaddrinfo restricted to the first
result (an abstract sockaddr, represented by a Nat), returning an error
code on failure; gni models getnameinfo in NI_NUMERICHOST mode,
returning the numeric textual form or failing. -/
structure Resolver where
  gai : List Char → Except Nat Nat
  gni : Nat → Option (List Char)

/-- Observable side effects of the seeding pass: the res_init call and
each getaddrinfo invocation (with the name looked up). -/
inductive Event where
  | resInit : Event
  | gaiCall : List Char → Event
  deriving DecidableEq, Repr

/-- Modelled from the spec: the CACHE_FILE path template comes from
ddns.h, which is not among the visible sources.  Per spec section 6 and
the comment above write_cache_file, the path is
/var/run/inadyn/<alias-name>.cache. -/
def CACHE_FILE_path (name : List Char) : List Char :=
  "/var/run/inadyn/".data ++ name ++ ".cache".data

/-- Modelled from the spec: the legacy single shared cache file lives in
the same state directory (ddns.h is not among the visible sources); its
exact name is immaterial, only that it is a fixed path distinct from the
per-alias paths used in our scenarios. -/
def OLD_CACHE_FILE : List Char :=
  "/var/run/inadyn/inadyn_ip.cache".data

/-- Modelled from the spec: RC_INVALID_POINTER is a return-code constant
from the headers not among the visible sources; only its distinctness
from 0 (success) matters. -/
def RC_INVALID_POINTER : Nat := 2

/-- strncpy into a buffer of size n: at most n characters are copied. -/
def strncpyN (n : Nat) (src : List Char) : List Char :=
  src.take n

/-- One line read by fgets with buffer size n: at most n-1 characters,
stopping after (and including) a newline. -/
def takeLine : Nat → List Char → List Char
  | 0, _ => []
  | _, [] => []
  | Nat.succ k, c :: cs => if c = '\n' then [c] else c :: takeLine k cs

/-- fgets(buf, n, fp) on a freshly opened file whose content is given:
returns none at immediate end of file (empty content), otherwise the
first line, bounded by the buffer size. -/
def fgets (n : Nat) (content : List Char) : Option (List Char) :=
  match content with
  | [] => none
  | _ => some (takeLine (n - 1) content)

/-- nslookup (cache.c lines 20-49): getaddrinfo on the alias name; on
success, getnameinfo converts the first result to numeric text and on
conversion success the address field is updated by strncpy; the function
returns 0 whenever getaddrinfo succeeded and 1 otherwise.  The trace
records the single getaddrinfo invocation. -/
def nslookup (r : Resolver) (maxLen : Nat) (a : Alias) :
    Alias × Nat × List Event :=
  match r.gai a.name with
  | Except.ok res =>
    match r.gni res with
    | some address =>
      ({ a with address := strncpyN maxLen address }, 0, [Event.gaiCall a.name])
    | none => (a, 0, [Event.gaiCall a.name])
  | Except.error _ => (a, 1, [Event.gaiCall a.name])

/-- read_one (cache.c lines 51-84): reset last_update and address, try
the per-alias cache file; on open failure either stop (nonslookup) or
fall back to nslookup; on open success read one line into address via
strncpy and take last_update from the file modification time (fstat on
an open descriptor, modelled as succeeding). -/
def read_one (fs : Fs) (r : Resolver) (maxLen : Nat) (a0 : Alias)
    (nonslookup : Bool) : Alias × List Event :=
  let a := { a0 with last_update := 0, address := [] }
  match fs.files (CACHE_FILE_path a.name) with
  | none =>
    if nonslookup then (a, [])
    else
      let res := nslookup r maxLen a
      (res.1, res.2.2)
  | some (content, mtime) =>
    let a1 :=
      match fgets maxLen content with
      | some line => { a with address := strncpyN maxLen line }
      | none => a
    ({ a1 with last_update := mtime }, [])

/-- Seeding of the aliases of one provider group, in order (the inner
loop of read_cache_file). -/
def seedAliases (fs : Fs) (r : Resolver) (maxLen : Nat) (nonslookup : Bool) :
    List Alias → List Alias × List Event
  | [] => ([], [])
  | a :: as =>
    let h := read_one fs r maxLen a nonslookup
    let t := seedAliases fs r maxLen nonslookup as
    (h.1 :: t.1, h.2 ++ t.2)

/-- Seeding of a list of provider groups, in order (the outer loop of
read_cache_file); nonslookup is the tunnelbroker special case computed
from the provider identity string. -/
def seedInfos (fs : Fs) (r : Resolver) (maxLen : Nat) :
    List Info → List Info × List Event
  | [] => ([], [])
  | i :: is =>
    let nonslookup : Bool := i.system_name = "ipv6tb@he.net".data
    let h := seedAliases fs r maxLen nonslookup i.aliases
    let t := seedInfos fs r maxLen is
    ({ i with aliases := h.1 } :: t.1, h.2 ++ t.2)

/-- read_cache_file (cache.c lines 91-115): res_init first, then the
null-context check returning RC_INVALID_POINTER, then seeding of every
alias of every provider group, returning 0. -/
def read_cache_file (fs : Fs) (r : Resolver) (maxLen : Nat)
    (ctx : Option Ctx) : Option Ctx × Nat × List Event :=
  match ctx with
  | none => (none, RC_INVALID_POINTER, [Event.resInit])
  | some c =>
    let s := seedInfos fs r maxLen c.info
    (some { info := s.1 }, 0, Event.resInit :: s.2)

/-- write_cache_file (cache.c lines 119-134): open the per-alias path
for writing; on success write the address string (the write time becomes
the new modification time) and return 0; on open failure return 1.  The
alias record is returned explicitly since the C function receives it by
pointer. -/
def write_cache_file (fs : Fs) (now : Nat) (a : Alias) :
    Fs × Alias × Nat :=
  let path := CACHE_FILE_path a.name
  if fs.writable path then
    ({ fs with files := fun p => if p = path then some (a.address, now) else fs.files p },
     a, 0)
  else
    (fs, a, 1)

/-! Concrete fixtures used by witnesses and counterexamples. -/

/-- Alias fixture with the name from the spec scenario. -/
def aliasHome : Alias :=
  { name := "home.example.com".data, address := [], last_update := 0 }

/-- Alias fixture for the no-hostname scenario of the spec. -/
def aliasTunnel : Alias :=
  { name := "tunnel.example.com".data, address := [], last_update := 0 }

/-- Provider group fixture marked no-hostname (the tunnelbroker identity
string the code special-cases). -/
def infoTunnel : Info :=
  { system_name := "ipv6tb@he.net".data, aliases := [aliasTunnel] }

/-- Filesystem fixture with no files at all, everything writable. -/
def fsEmpty : Fs :=
  { files := fun _ => none, writable := fun _ => true }

/-- Filesystem fixture holding one per-alias cache file for aliasHome
with the spec scenario content and modification time. -/
def fsHome : Fs :=
  { files := fun p =>
      if p = CACHE_FILE_path "home.example.com".data then
        some ("203.0.113.7".data, 1700000000)
      else none,
    writable := fun _ => true }

/-- Filesystem fixture holding an empty per-alias cache file. -/
def fsEmptyFile : Fs :=
  { files := fun p =>
      if p = CACHE_FILE_path "home.example.com".data then some ([], 42)
      else none,
    writable := fun _ => true }

/-- Filesystem fixture holding only the legacy shared cache file and no
per-alias file. -/
def fsLegacyOnly : Fs :=
  { files := fun p =>
      if p = OLD_CACHE_FILE then some ("9.9.9.9".data, 7) else none,
    writable := fun _ => true }

/-- Configuration fixture: one ordinary provider group owning aliasHome. -/
def ctxHome : Ctx :=
  { info := [{ system_name := "default@dyndns.org".data, aliases := [aliasHome] }] }

/-- Resolver fixture whose lookup always fails. -/
def resolverFail : Resolver :=
  { gai := fun _ => Except.error 8, gni := fun _ => none }

/-- Resolver fixture whose lookup and conversion always succeed. -/
def resolverGood : Resolver :=
  { gai := fun _ => Except.ok 1, gni := fun _ => some "93.184.216.34".data }

/-- Resolver fixture whose lookup succeeds but whose textual conversion
fails. -/
def resolverConvFail : Resolver :=
  { gai := fun _ => Except.ok 1, gni := fun _ => none }

/-- Address a cache hit yields, as a function of the file content and
the buffer size alone: the first fgets line passed through strncpy, or
the empty (reset) buffer when fgets reads nothing. -/
def cachedAddress (maxLen : Nat) (content : List Char) : List Char :=
  match fgets maxLen content with
  | some line => strncpyN maxLen line
  | none => []

/-- C1: for every alias whose per-alias cache file opens for reading,
read_one sets the address from the file content (the bounded first
line), sets last_update from the file modification time, and never
invokes the resolver (empty event trace): the cache entry is
authoritative. -/
theorem read_one_cache_hit_authoritative (fs : Fs) (r : Resolver) (maxLen : Nat)
    (a : Alias) (nons : Bool) (content : List Char) (mtime : Nat)
    (h : fs.files (CACHE_FILE_path a.name) = some (content, mtime)) :
    (read_one fs r maxLen a nons).1.last_update = mtime ∧
    (read_one fs r maxLen a nons).1.address = cachedAddress maxLen content ∧
    (read_one fs r maxLen a nons).2 = [] := by
  simp only [read_one, h]
  cases hf : fgets maxLen content <;> simp [cachedAddress, hf]

/-- C1 witness: the concrete spec scenario, alias home.example.com with
cache file content 203.0.113.7 and a fixed mtime. -/
theorem read_one_cache_hit_authoritative_witness :
    (read_one fsHome resolverFail 16 aliasHome false).1.last_update = 1700000000 ∧
    (read_one fsHome resolverFail 16 aliasHome false).1.address = "203.0.113.7".data ∧
    (read_one fsHome resolverFail 16 aliasHome false).2 = [] := by
  obtain ⟨h1, h2, h3⟩ :=
    read_one_cache_hit_authoritative fsHome resolverFail 16 aliasHome false
      ("203.0.113.7".data) 1700000000 (by decide)
  exact ⟨h1, h2.trans (by decide), h3⟩

/-- C9: an existing but empty cache file still counts as a hit: the
address stays empty, last_update is still taken from the file
modification time, and the resolver is never invoked. -/
theorem read_one_empty_cache_file_hit (fs : Fs) (r : Resolver) (maxLen : Nat)
    (a : Alias) (nons : Bool) (mtime : Nat)
    (h : fs.files (CACHE_FILE_path a.name) = some ([], mtime)) :
    (read_one fs r maxLen a nons).1.address = [] ∧
    (read_one fs r maxLen a nons).1.last_update = mtime ∧
    (read_one fs r maxLen a nons).2 = [] := by
  simp [read_one, h, fgets]

/-- C9 witness: a concrete empty cache file with mtime 42. -/
theorem read_one_empty_cache_file_hit_witness :
    (read_one fsEmptyFile resolverGood 16 aliasHome false).1.address = [] ∧
    (read_one fsEmptyFile resolverGood 16 aliasHome false).1.last_update = 42 ∧
    (read_one fsEmptyFile resolverGood 16 aliasHome false).2 = [] :=
  read_one_empty_cache_file_hit fsEmptyFile resolverGood 16 aliasHome false 42 (by decide)

/-- Helper for the no-hostname case: a provider group is seeded
elementwise, each alias through read_one with the group's nonslookup
flag, the group trace being the concatenation of the per-alias traces. -/
theorem seedAliases_eq_map (fs : Fs) (r : Resolver) (maxLen : Nat)
    (nons : Bool) (as : List Alias) :
    seedAliases fs r maxLen nons as =
      (as.map fun a => (read_one fs r maxLen a nons).1,
       (as.map fun a => (read_one fs r maxLen a nons).2).flatten) := by
  induction as with
  | nil => rfl
  | cons a as ih => simp [seedAliases, ih]

/-- C4: for every alias of a provider group carrying the no-hostname
identity whose cache file cannot be opened, seeding leaves the address
empty and last_update zero and never invokes the resolver for that
alias, even when sibling aliases do have cache files: such a group is
seeded elementwise with the nonslookup flag set, and on a missing alias
read_one yields exactly the reset defaults with an empty trace. -/
theorem read_one_nohostname_miss_defaults (fs : Fs) (r : Resolver) (maxLen : Nat)
    (i : Info) (rest : List Info) (a : Alias)
    (hsys : i.system_name = "ipv6tb@he.net".data)
    (_ha : a ∈ i.aliases)
    (h : fs.files (CACHE_FILE_path a.name) = none) :
    read_one fs r maxLen a true = ({ a with address := [], last_update := 0 }, []) ∧
    seedInfos fs r maxLen (i :: rest) =
      ({ i with aliases := i.aliases.map fun a' => (read_one fs r maxLen a' true).1 }
         :: (seedInfos fs r maxLen rest).1,
       (i.aliases.map fun a' => (read_one fs r maxLen a' true).2).flatten
         ++ (seedInfos fs r maxLen rest).2) := by
  constructor
  · simp [read_one, h]
  · simp [seedInfos, hsys, seedAliases_eq_map]

/-- Provider group fixture marked no-hostname holding a mixed pair of
aliases: aliasHome has a cache file in fsHome, aliasTunnel does not. -/
def infoTunnelMixed : Info :=
  { system_name := "ipv6tb@he.net".data, aliases := [aliasHome, aliasTunnel] }

/-- C4 witness: in the mixed group, the alias without a cache file is
seeded to the reset defaults with no resolver call, while its sibling is
seeded from its cache file; the pass emits no resolver event at all. -/
theorem read_one_nohostname_miss_defaults_witness :
    read_one fsHome resolverGood 16 aliasTunnel true =
      ({ aliasTunnel with address := [], last_update := 0 }, []) ∧
    seedInfos fsHome resolverGood 16 [infoTunnelMixed] =
      ([{ infoTunnelMixed with
            aliases :=
              [{ aliasHome with address := "203.0.113.7".data, last_update := 1700000000 },
               { aliasTunnel with address := [], last_update := 0 }] }],
       []) := by
  have h := read_one_nohostname_miss_defaults fsHome resolverGood 16
    infoTunnelMixed [] aliasTunnel rfl (by decide) (by decide)
  refine ⟨h.1, h.2.trans ?_⟩
  decide

/-- C5: for an alias with no cache file in a group not marked
no-hostname, read_one resolves the name; on full success the address
becomes the resolved numeric address while last_update stays zero; on
lookup failure both fields keep the reset defaults; either way seeding
proceeds to the next alias (the tail of seedAliases is unaffected). -/
theorem read_one_fallback_resolution (fs : Fs) (r : Resolver) (maxLen : Nat)
    (a : Alias)
    (h : fs.files (CACHE_FILE_path a.name) = none) :
    (∀ res addr, r.gai a.name = Except.ok res → r.gni res = some addr →
        addr.length ≤ maxLen →
        (read_one fs r maxLen a false).1.address = addr ∧
        (read_one fs r maxLen a false).1.last_update = 0) ∧
    (∀ e, r.gai a.name = Except.error e →
        (read_one fs r maxLen a false).1.address = [] ∧
        (read_one fs r maxLen a false).1.last_update = 0) ∧
    (∀ res, r.gai a.name = Except.ok res → r.gni res = none →
        (read_one fs r maxLen a false).1.address = [] ∧
        (read_one fs r maxLen a false).1.last_update = 0) ∧
    (∀ rest, seedAliases fs r maxLen false (a :: rest) =
        ((read_one fs r maxLen a false).1 :: (seedAliases fs r maxLen false rest).1,
         (read_one fs r maxLen a false).2 ++ (seedAliases fs r maxLen false rest).2)) := by
  refine ⟨?_, ?_, ?_, fun rest => rfl⟩
  · intro res addr hgai hgni hlen
    simp [read_one, nslookup, h, hgai, hgni, strncpyN, List.take_of_length_le hlen]
  · intro e hgai
    simp [read_one, nslookup, h, hgai]
  · intro res hgai hgni
    simp [read_one, nslookup, h, hgai, hgni]

/-- C5 witness: alias home.example.com, no cache file, resolver
returning 93.184.216.34. -/
theorem read_one_fallback_resolution_witness :
    (read_one fsEmpty resolverGood 16 aliasHome false).1.address = "93.184.216.34".data ∧
    (read_one fsEmpty resolverGood 16 aliasHome false).1.last_update = 0 :=
  (read_one_fallback_resolution fsEmpty resolverGood 16 aliasHome rfl).1
    1 ("93.184.216.34".data) rfl rfl (by decide)

/-- C3 counterexample: with a successful lookup whose first result fails
textual conversion (getnameinfo returns none), nslookup returns 0, the
success code, not a failure result; the claim that all three failure
cases return failure is therefore false on the code. -/
theorem nslookup_conversion_failure_returns_success :
    resolverConvFail.gai aliasHome.name = Except.ok 1 ∧
    resolverConvFail.gni 1 = none ∧
    (nslookup resolverConvFail 16 aliasHome).2.1 = 0 :=
  ⟨rfl, rfl, rfl⟩

/-- C3 amended: nslookup returns failure (1) exactly when the lookup
itself errors (which is also how an empty result set is reported); on
textual-conversion failure it returns success (0) with the alias record
unmodified; on lookup error the record is also unmodified; it performs
exactly one lookup (no retry) and always returns normally with 0 or 1
(never a fatal error). -/
theorem nslookup_failure_cases_amended (r : Resolver) (maxLen : Nat) (a : Alias) :
    ((nslookup r maxLen a).2.1 = 1 ↔ ∃ e, r.gai a.name = Except.error e) ∧
    (∀ res, r.gai a.name = Except.ok res → r.gni res = none →
        (nslookup r maxLen a).2.1 = 0 ∧ (nslookup r maxLen a).1 = a) ∧
    (∀ e, r.gai a.name = Except.error e → (nslookup r maxLen a).1 = a) ∧
    (nslookup r maxLen a).2.2 = [Event.gaiCall a.name] ∧
    ((nslookup r maxLen a).2.1 = 0 ∨ (nslookup r maxLen a).2.1 = 1) := by
  cases hgai : r.gai a.name with
  | ok res => cases hgni : r.gni res <;> simp [nslookup, hgai, hgni]
  | error e => simp [nslookup, hgai]

/-- C3 amended witness: a failing lookup yields return code 1. -/
theorem nslookup_failure_cases_amended_witness :
    (nslookup resolverFail 16 aliasHome).2.1 = 1 :=
  (nslookup_failure_cases_amended resolverFail 16 aliasHome).1.mpr ⟨8, rfl⟩

/-- C2: at the failing input (the legacy shared cache file present with
content 9.9.9.9 and mtime 7, no per-alias cache file) the seeding pass
never consults the legacy file: the alias is seeded through a resolver
call (here failing), ending with empty address and zero last_update
rather than the legacy content and mtime, and the filesystem is not
touched, so the legacy file is neither migrated nor removed. -/
theorem legacy_cache_file_not_consulted :
    fsLegacyOnly.files OLD_CACHE_FILE = some ("9.9.9.9".data, 7) ∧
    fsLegacyOnly.files (CACHE_FILE_path aliasHome.name) = none ∧
    read_cache_file fsLegacyOnly resolverFail 16 (some ctxHome) =
      (some { info := [{ system_name := "default@dyndns.org".data,
                         aliases := [{ aliasHome with address := [], last_update := 0 }] }] },
       0, [Event.resInit, Event.gaiCall aliasHome.name]) := by
  refine ⟨by decide, by decide, ?_⟩
  decide

/-- C6: the seeding entry point returns the distinct RC_INVALID_POINTER
code exactly when the context is null, in which case no alias is
processed (only the res_init event occurs and no context is produced);
for any non-null context it returns 0 regardless of the filesystem and
resolver behaviour. -/
theorem read_cache_file_invalid_context (fs : Fs) (r : Resolver) (maxLen : Nat)
    (ctx : Option Ctx) :
    RC_INVALID_POINTER ≠ 0 ∧
    ((read_cache_file fs r maxLen ctx).2.1 = RC_INVALID_POINTER ↔ ctx = none) ∧
    (ctx = none →
        read_cache_file fs r maxLen ctx = (none, RC_INVALID_POINTER, [Event.resInit])) ∧
    (∀ c, ctx = some c → (read_cache_file fs r maxLen ctx).2.1 = 0) := by
  cases ctx <;> simp [read_cache_file, RC_INVALID_POINTER]

/-- C6 witness: a null context yields exactly the invalid-pointer result
with no alias processed. -/
theorem read_cache_file_invalid_context_witness :
    read_cache_file fsEmpty resolverGood 16 none =
      (none, RC_INVALID_POINTER, [Event.resInit]) :=
  (read_cache_file_invalid_context fsEmpty resolverGood 16 none).2.2.1 rfl

/-- Helper for C7: the trace of read_one never contains the res_init
event. -/
theorem read_one_trace_no_resInit (fs : Fs) (r : Resolver) (maxLen : Nat)
    (a : Alias) (nons : Bool) :
    Event.resInit ∉ (read_one fs r maxLen a nons).2 := by
  cases hfs : fs.files (CACHE_FILE_path a.name) with
  | none =>
    cases nons with
    | true => simp [read_one, hfs]
    | false =>
      cases hgai : r.gai a.name with
      | ok res =>
        cases hgni : r.gni res <;> simp [read_one, nslookup, hfs, hgai, hgni]
      | error e => simp [read_one, nslookup, hfs, hgai]
  | some v =>
    cases v with
    | mk content mtime => simp [read_one, hfs]

/-- Helper for C7: the trace of seedAliases never contains the res_init
event. -/
theorem seedAliases_trace_no_resInit (fs : Fs) (r : Resolver) (maxLen : Nat)
    (nons : Bool) (as : List Alias) :
    Event.resInit ∉ (seedAliases fs r maxLen nons as).2 := by
  induction as with
  | nil => simp [seedAliases]
  | cons a as ih =>
    simp only [seedAliases, List.mem_append]
    push_neg
    exact ⟨read_one_trace_no_resInit fs r maxLen a nons, ih⟩

/-- Helper for C7: the trace of seedInfos never contains the res_init
event. -/
theorem seedInfos_trace_no_resInit (fs : Fs) (r : Resolver) (maxLen : Nat)
    (is : List Info) :
    Event.resInit ∉ (seedInfos fs r maxLen is).2 := by
  induction is with
  | nil => simp [seedInfos]
  | cons i is ih =>
    simp only [seedInfos, List.mem_append]
    push_neg
    exact ⟨seedAliases_trace_no_resInit fs r maxLen _ i.aliases, ih⟩

/-- C7: every seeding pass performs the resolver-cache clear (res_init)
exactly once, as the very first observable event, before any provider
group or alias is processed, and never again per alias. -/
theorem read_cache_file_res_init_once (fs : Fs) (r : Resolver) (maxLen : Nat)
    (ctx : Option Ctx) :
    ∃ rest, (read_cache_file fs r maxLen ctx).2.2 = Event.resInit :: rest ∧
      Event.resInit ∉ rest := by
  cases ctx with
  | none => exact ⟨[], rfl, by simp⟩
  | some c =>
    exact ⟨(seedInfos fs r maxLen c.info).2, rfl,
      seedInfos_trace_no_resInit fs r maxLen c.info⟩

/-- Alias fixture whose address contains an interior newline, within the
buffer bound. -/
def aliasNewline : Alias :=
  { name := "x".data, address := 'a' :: '\n' :: ['b'], last_update := 0 }

/-- C8 counterexample: an address with an interior newline, well within
the buffer bound, is written successfully but reads back differently
(fgets stops at the newline), so the round trip as claimed for every
bounded address fails. -/
theorem cache_round_trip_newline_counterexample :
    aliasNewline.address.length < 16 ∧
    (write_cache_file fsEmpty 5 aliasNewline).2.2 = 0 ∧
    (read_one (write_cache_file fsEmpty 5 aliasNewline).1 resolverFail 16
        aliasNewline false).1.address ≠ aliasNewline.address := by
  decide

/-- Helper for C8: reading a line of fgets returns a newline-free list
within the bound unchanged. -/
theorem takeLine_of_no_newline (k : Nat) (as : List Char) (h : as.length ≤ k)
    (hnl : '\n' ∉ as) : takeLine k as = as := by
  induction as generalizing k with
  | nil => cases k <;> rfl
  | cons c cs ih =>
    cases k with
    | zero => simp at h
    | succ k =>
      have hc : ¬c = '\n' := fun e => hnl (by simp [e])
      have hk : cs.length ≤ k := Nat.le_of_succ_le_succ (by simpa using h)
      have hcs : '\n' ∉ cs := fun hm => hnl (List.mem_cons_of_mem c hm)
      simp only [takeLine, if_neg hc]
      rw [ih k hk hcs]

/-- C8 amended: the write-then-read round trip holds for every alias and
every address within the buffer bound that contains no newline
character: the write succeeds, reading back yields the same address, and
last_update equals the modification time produced by the write. -/
theorem cache_round_trip_no_newline (fs : Fs) (r : Resolver) (maxLen now : Nat)
    (a : Alias) (nons : Bool)
    (hw : fs.writable (CACHE_FILE_path a.name) = true)
    (hlen : a.address.length < maxLen)
    (hnl : '\n' ∉ a.address) :
    (write_cache_file fs now a).2.2 = 0 ∧
    (read_one (write_cache_file fs now a).1 r maxLen a nons).1.address = a.address ∧
    (read_one (write_cache_file fs now a).1 r maxLen a nons).1.last_update = now := by
  have hfs : (write_cache_file fs now a).1.files (CACHE_FILE_path a.name)
      = some (a.address, now) := by
    simp [write_cache_file, hw]
  have hret : (write_cache_file fs now a).2.2 = 0 := by
    simp [write_cache_file, hw]
  have hmain :
      (read_one (write_cache_file fs now a).1 r maxLen a nons).1.address
        = cachedAddress maxLen a.address ∧
      (read_one (write_cache_file fs now a).1 r maxLen a nons).1.last_update = now := by
    simp only [read_one, hfs]
    cases hf : fgets maxLen a.address <;> simp [cachedAddress, hf]
  refine ⟨hret, ?_, hmain.2⟩
  rw [hmain.1]
  cases haddr : a.address with
  | nil => simp [cachedAddress, fgets]
  | cons c cs =>
    rw [haddr] at hlen hnl
    have hk : (c :: cs).length ≤ maxLen - 1 := Nat.le_pred_of_lt hlen
    simp only [cachedAddress, fgets]
    rw [takeLine_of_no_newline (maxLen - 1) (c :: cs) hk hnl]
    simp [strncpyN, List.take_of_length_le (Nat.le_of_lt hlen)]

/-- C8 amended witness: a concrete round trip of address 203.0.113.7 at
write time 99. -/
theorem cache_round_trip_no_newline_witness :
    ((write_cache_file fsEmpty 99
        { name := "home.example.com".data, address := "203.0.113.7".data,
          last_update := 3 }).2.2 = 0) ∧
    (read_one (write_cache_file fsEmpty 99
        { name := "home.example.com".data, address := "203.0.113.7".data,
          last_update := 3 }).1 resolverFail 16
        { name := "home.example.com".data, address := "203.0.113.7".data,
          last_update := 3 } false).1.address = "203.0.113.7".data ∧
    (read_one (write_cache_file fsEmpty 99
        { name := "home.example.com".data, address := "203.0.113.7".data,
          last_update := 3 }).1 resolverFail 16
        { name := "home.example.com".data, address := "203.0.113.7".data,
          last_update := 3 } false).1.last_update = 99 :=
  cache_round_trip_no_newline fsEmpty resolverFail 16 99
    { name := "home.example.com".data, address := "203.0.113.7".data,
      last_update := 3 } false rfl (by decide) (by decide)

/-- C10: write_cache_file returns the alias record unchanged whether the
write succeeds or fails: persisting never mutates name, address or
last_update. -/
theorem write_cache_file_frame (fs : Fs) (now : Nat) (a : Alias) :
    (write_cache_file fs now a).2.1 = a := by
  cases hw : fs.writable (CACHE_FILE_path a.name) <;>
    simp [write_cache_file, hw]

end Inadyn
